import Mathlib

/-!
Verification of the Daytona MCP server (`server.py`) against its
natural-language specification.

The development shallowly embeds the Python source: every public tool
operation (`list_sandboxes`, `create_sandbox`, `get_sandbox_info`,
`remove_sandbox`, `execute_command`, `read_file`, `write_file`,
`list_files`) and both MCP resources are modelled as total Lean functions
from an environment (the two `DAYTONA_*` environment variables) and a
service stub (mapping each HTTP request to either a transport failure or
a response) to the returned text together with the list of HTTP requests
actually issued.  Exceptions of the Python code are modelled with
`Except`; the `try/except` blocks of the source become the
`renderToolResult` wrapper, so every public operation is a total
function, mirroring the fact that no operation lets a fault escape.
-/

/-- JSON values as decoded by `response.json()` / encoded by `json.dumps`.
Numbers are modelled as integers (no floating point is exercised by the
source or the spec). -/
inductive Json where
  | null : Json
  | bool : Bool → Json
  | num : Int → Json
  | str : String → Json
  | arr : List Json → Json
  | obj : List (String × Json) → Json

/-- One escaped character of a JSON string literal, as produced by
Python `json.dumps` (quote, backslash and the common control characters;
other control characters and non-ASCII escapes are not exercised by the
source). -/
def jsonEscapeChar (c : Char) : List Char :=
  if c = '"' then ['\\', '"']
  else if c = '\\' then ['\\', '\\']
  else if c = '\n' then ['\\', 'n']
  else if c = '\t' then ['\\', 't']
  else if c = '\r' then ['\\', 'r']
  else [c]

/-- Escape the characters of a string for a JSON string literal. -/
def jsonEscape (s : String) : String :=
  ⟨s.data.foldr (fun c acc => jsonEscapeChar c ++ acc) []⟩

/-- A JSON string literal: `"..."` with the content escaped. -/
def jsonStrLit (s : String) : String :=
  "\"" ++ jsonEscape s ++ "\""

mutual

/-- Python `json.dumps` with the default separators (`", "` and `": "`),
as used by `json.dumps({"error": str(e)})` in `list_sandboxes_resource`. -/
def jsonDumps : Json → String
  | .null => "null"
  | .bool true => "true"
  | .bool false => "false"
  | .num n => toString n
  | .str s => jsonStrLit s
  | .arr xs => "[" ++ jsonDumpsItems xs ++ "]"
  | .obj kvs => "\x7b" ++ jsonDumpsPairs kvs ++ "\x7d"

/-- Comma-separated rendering of the elements of a JSON array. -/
def jsonDumpsItems : List Json → String
  | [] => ""
  | [x] => jsonDumps x
  | x :: y :: xs => jsonDumps x ++ ", " ++ jsonDumpsItems (y :: xs)

/-- Comma-separated rendering of the members of a JSON object. -/
def jsonDumpsPairs : List (String × Json) → String
  | [] => ""
  | [(k, v)] => jsonStrLit k ++ ": " ++ jsonDumps v
  | (k, v) :: kv :: kvs =>
      jsonStrLit k ++ ": " ++ jsonDumps v ++ ", " ++ jsonDumpsPairs (kv :: kvs)

end

/-- `2 * lv` spaces, the indentation of nesting level `lv` under
`json.dumps(..., indent=2)`. -/
def indentOf (lv : Nat) : String :=
  ⟨List.replicate (2 * lv) ' '⟩

mutual

/-- Python `json.dumps(x, indent=2)` at nesting level `lv`, as used by the
success paths of the listing/creation/info operations. -/
def jsonDumpsInd : Nat → Json → String
  | _, .null => "null"
  | _, .bool true => "true"
  | _, .bool false => "false"
  | _, .num n => toString n
  | _, .str s => jsonStrLit s
  | _, .arr [] => "[]"
  | lv, .arr (x :: xs) =>
      "[\n" ++ jsonDumpsIndItems (lv + 1) (x :: xs) ++ "\n" ++ indentOf lv ++ "]"
  | _, .obj [] => "\x7b\x7d"
  | lv, .obj (kv :: kvs) =>
      "\x7b\n" ++ jsonDumpsIndPairs (lv + 1) (kv :: kvs) ++ "\n" ++ indentOf lv ++ "\x7d"

/-- The elements of a JSON array under `indent=2`, one per line. -/
def jsonDumpsIndItems : Nat → List Json → String
  | _, [] => ""
  | lv, [x] => indentOf lv ++ jsonDumpsInd lv x
  | lv, x :: y :: xs =>
      indentOf lv ++ jsonDumpsInd lv x ++ ",\n" ++ jsonDumpsIndItems lv (y :: xs)

/-- The members of a JSON object under `indent=2`, one per line. -/
def jsonDumpsIndPairs : Nat → List (String × Json) → String
  | _, [] => ""
  | lv, [(k, v)] => indentOf lv ++ jsonStrLit k ++ ": " ++ jsonDumpsInd lv v
  | lv, (k, v) :: kv :: kvs =>
      indentOf lv ++ jsonStrLit k ++ ": " ++ jsonDumpsInd lv v ++ ",\n" ++
        jsonDumpsIndPairs lv (kv :: kvs)

end

/-- Python `json.dumps(x, indent=2)`. -/
def jsonDumpsIndent2 (j : Json) : String :=
  jsonDumpsInd 0 j

/-- A single-quote character, used by the Python `repr` of strings. -/
def singleQuote : String :=
  (Char.ofNat 39).toString

mutual

/-- Python `repr` of a JSON-decoded value (`None`/`True`/`False`, numbers,
single-quoted strings, lists and dicts).  The escaping Python applies
inside repr-quoted strings is not modelled (no claim exercises it). -/
def pyRepr : Json → String
  | .null => "None"
  | .bool true => "True"
  | .bool false => "False"
  | .num n => toString n
  | .str s => singleQuote ++ s ++ singleQuote
  | .arr xs => "[" ++ pyReprItems xs ++ "]"
  | .obj kvs => "\x7b" ++ pyReprPairs kvs ++ "\x7d"

/-- Comma-separated Python `repr` of list elements. -/
def pyReprItems : List Json → String
  | [] => ""
  | [x] => pyRepr x
  | x :: y :: xs => pyRepr x ++ ", " ++ pyReprItems (y :: xs)

/-- Comma-separated Python `repr` of dict items. -/
def pyReprPairs : List (String × Json) → String
  | [] => ""
  | [(k, v)] => singleQuote ++ k ++ singleQuote ++ ": " ++ pyRepr v
  | (k, v) :: kv :: kvs =>
      singleQuote ++ k ++ singleQuote ++ ": " ++ pyRepr v ++ ", " ++
        pyReprPairs (kv :: kvs)

end

/-- Python `str()` of a JSON-decoded value, as interpolated by the
f-strings of `execute_command` (`f"Exit Code: {...}"`): a string renders
as itself, everything else as its `repr`. -/
def pyFormat : Json → String
  | .str s => s
  | j => pyRepr j

/-- Split a character list at every occurrence of the separator `sep`,
Python `str.split(sep)` for a one-character separator: the empty string
yields `[""]`, and adjacent separators yield empty pieces. -/
def splitChar (sep : Char) : List Char → List (List Char)
  | [] => [[]]
  | c :: cs =>
    if c = sep then [] :: splitChar sep cs
    else
      match splitChar sep cs with
      | [] => [[c]]
      | h :: t => (c :: h) :: t

/-- Python `s.split(sep)` for a one-character separator. -/
def pySplit (s : String) (sep : Char) : List String :=
  (splitChar sep s.data).map (fun l => ⟨l⟩)

/-- Match a literal at the head of a list: `some rest` when `lit` is an
initial run of `l`, and then `rest` is what follows it. -/
def dropLit : List Char → List Char → Option (List Char)
  | [], r => some r
  | _ :: _, [] => none
  | a :: as, b :: bs => if a = b then dropLit as bs else none

/-- Python `str.replace(pat, rep)` on character lists for a NONEMPTY
pattern `a :: as`: every non-overlapping occurrence is replaced, scanning
left to right.  (Python's empty-pattern behaviour is not modelled; the
source only replaces the pattern `".git"`.)  The `fuel` argument makes
the recursion structural so that the kernel can evaluate it; every
recursive call strictly shortens the scanned list (a nonempty pattern
consumes at least one character), so with `fuel` at least the list
length the exhaustion branch is unreachable. -/
def replaceAllAux (a : Char) (as rep : List Char) : Nat → List Char → List Char
  | _, [] => []
  | 0, rest => rest
  | fuel + 1, c :: cs =>
    match dropLit (a :: as) (c :: cs) with
    | some rest => rep ++ replaceAllAux a as rep fuel rest
    | none => c :: replaceAllAux a as rep fuel cs

/-- Python `s.replace(pat, rep)`; for the empty pattern it returns `s`
unchanged (that case is never exercised by the source). -/
def pyReplace (s pat rep : String) : String :=
  match pat.data with
  | [] => s
  | a :: as => ⟨replaceAllAux a as rep.data s.data.length s.data⟩

/-- Python `s.rstrip(c)` for a single strip character: remove every
trailing occurrence of `c`. -/
def pyRstrip (s : String) (c : Char) : String :=
  ⟨(s.data.reverse.dropWhile (fun x => x == c)).reverse⟩


/-- An HTTP request as constructed by the source through `httpx`:
method, full URL, header dict, query parameters (`params=`), optional
JSON body (`json=`), multipart file parts (`files=`, each one
`(field name, (file name, content))`), and the client timeout in seconds
(`none` for the `httpx` default). -/
structure Request where
  method : String
  url : String
  headers : List (String × String)
  params : List (String × String)
  jsonBody : Option Json
  files : List (String × String × String)
  timeout : Option Nat

/-- A decoded HTTP response: status code, body text (`response.text`) and
decoded JSON body (`response.json()`).  Stubs provide both views of the
body, like a real server would. -/
structure HResp where
  status : Nat
  text : String
  json : Json

/-- The Python exceptions the source can raise or catch: `ValueError`
(raised by the credential getters), `httpx.HTTPStatusError` (raised by
`response.raise_for_status()`), transport-level `httpx` errors
(connection/DNS/timeout), and `AttributeError` (`.get` on a non-dict).
The source defines no further exception classes — in particular no
`NotFoundError`. -/
inductive PyErr where
  | valueError : String → PyErr
  | httpStatusError : Nat → String → PyErr
  | transport : String → PyErr
  | attributeError : String → PyErr
deriving DecidableEq

/-- Python `str(e)` for each exception.  For `ValueError`,
`AttributeError` and the transport errors this is the carried message;
the exact text `httpx` renders for `HTTPStatusError` is modelled
schematically (no claim depends on its precise wording). -/
def pyErrStr : PyErr → String
  | .valueError m => m
  | .httpStatusError status text => "HTTPStatusError " ++ toString status ++ ": " ++ text
  | .transport m => m
  | .attributeError m => m

/-- The process environment read through `os.getenv`. -/
structure Env where
  DAYTONA_API_KEY : Option String
  DAYTONA_SERVER_URL : Option String

/-- The remote service as observed through one HTTP request: either a
transport-level failure (connection error, timeout, ...) carrying its
message, or a response. -/
def Service : Type :=
  Request → Except String HResp

/-- `get_headers` (server.py:9-16): fails with `ValueError` when
`DAYTONA_API_KEY` is unset or empty (`if not api_key`), otherwise the
`Authorization` and JSON `Content-Type` headers. -/
def get_headers (env : Env) : Except PyErr (List (String × String)) :=
  match env.DAYTONA_API_KEY with
  | none => .error (.valueError "DAYTONA_API_KEY environment variable is not set")
  | some k =>
    if k = "" then .error (.valueError "DAYTONA_API_KEY environment variable is not set")
    else .ok [("Authorization", "Bearer " ++ k), ("Content-Type", "application/json")]

/-- `get_base_url` (server.py:18-22): fails with `ValueError` when
`DAYTONA_SERVER_URL` is unset or empty (`if not url`), otherwise the URL
with every trailing slash removed (`url.rstrip('/')`). -/
def get_base_url (env : Env) : Except PyErr String :=
  match env.DAYTONA_SERVER_URL with
  | none => .error (.valueError "DAYTONA_SERVER_URL environment variable is not set")
  | some u =>
    if u = "" then .error (.valueError "DAYTONA_SERVER_URL environment variable is not set")
    else .ok (pyRstrip u '/')

/-- The common prelude of every operation body:
`url = f"{get_base_url()}..."` followed by `headers = get_headers()`.
Either getter raising aborts the body before any request is issued, with
`get_base_url` evaluated first, as in the source. -/
def withCreds (env : Env)
    (f : String → List (String × String) → Except PyErr String × List Request) :
    Except PyErr String × List Request :=
  match get_base_url env with
  | .error e => (.error e, [])
  | .ok base =>
    match get_headers env with
    | .error e => (.error e, [])
    | .ok headers => f base headers

/-- Issue one request and run `response.raise_for_status()` on the
response: a transport failure becomes a raised transport error, a status
of 400 or above becomes a raised `HTTPStatusError` carrying the status
and `response.text`, and otherwise the continuation consumes the
response.  In every case exactly this one request was issued. -/
def send (srv : Service) (req : Request) (f : HResp → Except PyErr String) :
    Except PyErr String × List Request :=
  match srv req with
  | .error m => (.error (.transport m), [req])
  | .ok r =>
    if 400 ≤ r.status then (.error (.httpStatusError r.status r.text), [req])
    else (f r, [req])

/-- The `try/except` wrapper shared by all tool operations: an
`httpx.HTTPStatusError` renders as
`f"HTTP Error <op>: {e.response.status_code} - {e.response.text}"`, any
other exception as `f"Error <op>: {str(e)}"`, and a normal return is
passed through.  This makes every public operation total: no exception
escapes the tool boundary. -/
def renderToolResult (httpMsg otherMsg : String) :
    Except PyErr String × List Request → String × List Request
  | (.ok s, log) => (s, log)
  | (.error (.httpStatusError status text), log) =>
      (httpMsg ++ toString status ++ " - " ++ text, log)
  | (.error e, log) => (otherMsg ++ pyErrStr e, log)

/-- Body of `list_sandboxes` (server.py:24-40): GET the collection
endpoint and return the JSON body pretty-printed with `indent=2`. -/
def listSandboxesBody (env : Env) (srv : Service) :
    Except PyErr String × List Request :=
  withCreds env fun base headers =>
    send srv
      { method := "GET", url := base ++ "/api/sandbox", headers := headers,
        params := [], jsonBody := none, files := [], timeout := none }
      (fun r => .ok (jsonDumpsIndent2 r.json))

/-- `list_sandboxes` (server.py:24-40). -/
def list_sandboxes (env : Env) (srv : Service) : String × List Request :=
  renderToolResult "HTTP Error listing sandboxes: " "Error listing sandboxes: "
    (listSandboxesBody env srv)

/-- The derived sandbox name of `create_sandbox` (server.py:61):
`repository_url.split("/")[-1].replace(".git", "")`. -/
def derived_name (repository_url : String) : String :=
  pyReplace ((pySplit repository_url '/').getLastD "") ".git" ""

/-- The provisioning payload of `create_sandbox` (server.py:55-62):
the repository URL nested under `source.repository.url`, plus the
derived `name`. -/
def create_payload (repository_url : String) : Json :=
  Json.obj
    [("source", Json.obj [("repository", Json.obj [("url", Json.str repository_url)])]),
     ("name", Json.str (derived_name repository_url))]

/-- Body of `create_sandbox` (server.py:42-71): POST the payload to the
collection endpoint. -/
def createSandboxBody (env : Env) (srv : Service) (repository_url : String) :
    Except PyErr String × List Request :=
  withCreds env fun base headers =>
    send srv
      { method := "POST", url := base ++ "/api/sandbox", headers := headers,
        params := [], jsonBody := some (create_payload repository_url),
        files := [], timeout := none }
      (fun r => .ok ("Sandbox created successfully. Details: " ++ jsonDumpsIndent2 r.json))

/-- `create_sandbox` (server.py:42-71). -/
def create_sandbox (env : Env) (srv : Service) (repository_url : String) :
    String × List Request :=
  renderToolResult "HTTP Error creating sandbox: " "Error creating sandbox: "
    (createSandboxBody env srv repository_url)

/-- Body of `get_sandbox_info` (server.py:73-91): GET a single sandbox
by id. -/
def getSandboxInfoBody (env : Env) (srv : Service) (sandbox_id : String) :
    Except PyErr String × List Request :=
  withCreds env fun base headers =>
    send srv
      { method := "GET", url := base ++ "/api/sandbox/" ++ sandbox_id,
        headers := headers, params := [], jsonBody := none, files := [],
        timeout := none }
      (fun r => .ok (jsonDumpsIndent2 r.json))

/-- `get_sandbox_info` (server.py:73-91). -/
def get_sandbox_info (env : Env) (srv : Service) (sandbox_id : String) :
    String × List Request :=
  renderToolResult "HTTP Error getting sandbox info: " "Error getting sandbox info: "
    (getSandboxInfoBody env srv sandbox_id)

/-- Body of `remove_sandbox` (server.py:93-111): DELETE a sandbox by id. -/
def removeSandboxBody (env : Env) (srv : Service) (sandbox_id : String) :
    Except PyErr String × List Request :=
  withCreds env fun base headers =>
    send srv
      { method := "DELETE", url := base ++ "/api/sandbox/" ++ sandbox_id,
        headers := headers, params := [], jsonBody := none, files := [],
        timeout := none }
      (fun _ => .ok ("Sandbox " ++ sandbox_id ++ " removed successfully"))

/-- `remove_sandbox` (server.py:93-111). -/
def remove_sandbox (env : Env) (srv : Service) (sandbox_id : String) :
    String × List Request :=
  renderToolResult "HTTP Error removing sandbox: " "Error removing sandbox: "
    (removeSandboxBody env srv sandbox_id)

/-- Python `result.get(key, default)` on a decoded JSON value: a lookup
with default on a dict, and an `AttributeError` on anything else (only a
dict has the `.get` method). -/
def pyDictGet (j : Json) (key : String) (dflt : Json) : Except PyErr Json :=
  match j with
  | .obj kvs => .ok ((kvs.lookup key).getD dflt)
  | _ => .error (.attributeError "object has no attribute get")

/-- Body of `execute_command` (server.py:113-140): POST the command to
the per-sandbox execution endpoint with a 60-second timeout, then
assemble `Exit Code`/`Stdout`/`Stderr` from whatever subset of the
fields the response carries, with `result.get('exitCode', 'Unknown')`,
`result.get('stdout', '')` and `result.get('stderr', '')`. -/
def executeCommandBody (env : Env) (srv : Service) (sandbox_id command : String) :
    Except PyErr String × List Request :=
  withCreds env fun base headers =>
    send srv
      { method := "POST",
        url := base ++ "/api/toolbox/" ++ sandbox_id ++ "/process/execute",
        headers := headers, params := [],
        jsonBody := some (Json.obj [("command", Json.str command)]),
        files := [], timeout := some 60 }
      (fun r =>
        match pyDictGet r.json "exitCode" (Json.str "Unknown") with
        | .error e => .error e
        | .ok ec =>
          match pyDictGet r.json "stdout" (Json.str "") with
          | .error e => .error e
          | .ok so =>
            match pyDictGet r.json "stderr" (Json.str "") with
            | .error e => .error e
            | .ok se =>
              .ok ("Exit Code: " ++ pyFormat ec ++ "\nStdout: " ++ pyFormat so ++
                   "\nStderr: " ++ pyFormat se))

/-- `execute_command` (server.py:113-140). -/
def execute_command (env : Env) (srv : Service) (sandbox_id command : String) :
    String × List Request :=
  renderToolResult "HTTP Error executing command: " "Error executing command: "
    (executeCommandBody env srv sandbox_id command)

/-- Body of `read_file` (server.py:142-163): GET the per-sandbox download
endpoint with the path as a query parameter and return `response.text`. -/
def readFileBody (env : Env) (srv : Service) (sandbox_id path : String) :
    Except PyErr String × List Request :=
  withCreds env fun base headers =>
    send srv
      { method := "GET",
        url := base ++ "/api/toolbox/" ++ sandbox_id ++ "/files/download",
        headers := headers, params := [("path", path)], jsonBody := none,
        files := [], timeout := none }
      (fun r => .ok r.text)

/-- `read_file` (server.py:142-163). -/
def read_file (env : Env) (srv : Service) (sandbox_id path : String) :
    String × List Request :=
  renderToolResult "HTTP Error reading file: " "Error reading file: "
    (readFileBody env srv sandbox_id path)

/-- Body of `write_file` (server.py:165-193): POST to the per-sandbox
upload endpoint; `upload_headers` is the header dict with
`"Content-Type"` popped, the path travels as a query parameter, and the
multipart part is `files = {"file": (path.split('/')[-1], content)}`. -/
def writeFileBody (env : Env) (srv : Service) (sandbox_id path content : String) :
    Except PyErr String × List Request :=
  withCreds env fun base headers =>
    send srv
      { method := "POST",
        url := base ++ "/api/toolbox/" ++ sandbox_id ++ "/files/upload",
        headers := headers.filter (fun kv => kv.1 != "Content-Type"),
        params := [("path", path)], jsonBody := none,
        files := [("file", (pySplit path '/').getLastD "", content)],
        timeout := none }
      (fun _ => .ok ("File written successfully to " ++ path))

/-- `write_file` (server.py:165-193). -/
def write_file (env : Env) (srv : Service) (sandbox_id path content : String) :
    String × List Request :=
  renderToolResult "HTTP Error writing file: " "Error writing file: "
    (writeFileBody env srv sandbox_id path content)

/-- `list_files` (server.py:195-210): delegate to
`execute_command(sandbox_id, f"ls -la {path}")`.  The outer
`try/except` of the source is dead code because `execute_command`
returns normally on every path, so the delegation is exact. -/
def list_files (env : Env) (srv : Service) (sandbox_id path : String) :
    String × List Request :=
  execute_command env srv sandbox_id ("ls -la " ++ path)

/-- Body of `list_sandboxes_resource` (server.py:252-265); the source
duplicates the request logic of `list_sandboxes` verbatim. -/
def listSandboxesResourceBody (env : Env) (srv : Service) :
    Except PyErr String × List Request :=
  withCreds env fun base headers =>
    send srv
      { method := "GET", url := base ++ "/api/sandbox", headers := headers,
        params := [], jsonBody := none, files := [], timeout := none }
      (fun r => .ok (jsonDumpsIndent2 r.json))

/-- `list_sandboxes_resource` (server.py:252-265): the `daytona://sandboxes`
resource.  Its single `except Exception` branch returns
`json.dumps({"error": str(e)})`, unlike the tool operations. -/
def list_sandboxes_resource (env : Env) (srv : Service) : String × List Request :=
  match listSandboxesResourceBody env srv with
  | (.ok s, log) => (s, log)
  | (.error e, log) => (jsonDumps (Json.obj [("error", Json.str (pyErrStr e))]), log)

/-- Body of `read_file_resource` (server.py:267-291): identical request
logic to `read_file` (the source assigns `decoded_path = path` and uses
it unchanged). -/
def readFileResourceBody (env : Env) (srv : Service) (sandbox_id path : String) :
    Except PyErr String × List Request :=
  withCreds env fun base headers =>
    send srv
      { method := "GET",
        url := base ++ "/api/toolbox/" ++ sandbox_id ++ "/files/download",
        headers := headers, params := [("path", path)], jsonBody := none,
        files := [], timeout := none }
      (fun r => .ok r.text)

/-- `read_file_resource` (server.py:267-291): the handler behind the
`daytona://{sandbox_id}/files/{path}` resource template.  Its single
`except Exception` branch returns the plain text
`f"Error reading resource {sandbox_id}/{path}: {str(e)}"`. -/
def read_file_resource (env : Env) (srv : Service) (sandbox_id path : String) :
    String × List Request :=
  match readFileResourceBody env srv sandbox_id path with
  | (.ok s, log) => (s, log)
  | (.error e, log) =>
      ("Error reading resource " ++ sandbox_id ++ "/" ++ path ++ ": " ++ pyErrStr e, log)

/-- The URI template matcher of the FastMCP resource framework applied to
the template `daytona://{sandbox_id}/files/{path}` registered at
server.py:267.  FastMCP compiles each `{param}` placeholder to the
regular expression `[^/]+` (one or more characters, none of which is a
slash; the framework's `{param*}` wildcard form, which does cross
slashes, is not used by the source), anchored over the whole URI.  So
the URI matches exactly when it is
`daytona://` ++ sandbox_id ++ `/files/` ++ path with both captures
nonempty and slash-free. -/
def matchReadFileTemplate (uri : String) : Option (String × String) :=
  match dropLit "daytona://".data uri.data with
  | none => none
  | some rest =>
    let sid := rest.takeWhile (fun c => c != '/')
    let rest2 := rest.dropWhile (fun c => c != '/')
    if sid.isEmpty then none
    else
      match dropLit "/files/".data rest2 with
      | none => none
      | some p =>
        if p.isEmpty then none
        else if p.any (fun c => c == '/') then none
        else some (⟨sid⟩, ⟨p⟩)

/-- Resolution of a `daytona://.../files/...` resource URI: when the URI
matches the registered template, the framework invokes
`read_file_resource` with the captured `sandbox_id` and `path`;
otherwise no handler runs. -/
def resolve_read_file_uri (env : Env) (srv : Service) (uri : String) :
    Option (String × List Request) :=
  match matchReadFileTemplate uri with
  | none => none
  | some sp => some (read_file_resource env srv sp.1 sp.2)

/-- A concrete well-configured environment for witnesses. -/
def envOK : Env := ⟨some "k", some "http://h"⟩

/-- A concrete stub service answering every request with status 500 and
body `boom`. -/
def srv500 : Service := fun _ => .ok ⟨500, "boom", Json.null⟩

/-- A concrete stub service answering every request with status 200 and
an empty JSON object body. -/
def srv200 : Service := fun _ => .ok ⟨200, "ok", Json.obj []⟩

/-- A concrete stub service answering every request with status 404 and
body `gone`. -/
def srv404 : Service := fun _ => .ok ⟨404, "gone", Json.null⟩

theorem head_dropWhile_false {α : Type} (p : α → Bool) :
    ∀ (l : List α) (a : α), (l.dropWhile p).head? = some a → p a = false := by
  intro l
  induction l with
  | nil => intro a h; simp [List.dropWhile] at h
  | cons x xs ih =>
    intro a h
    rw [List.dropWhile_cons] at h
    by_cases hx : p x = true
    · rw [if_pos hx] at h
      exact ih a h
    · rw [if_neg hx] at h
      simp at h
      rw [← h]
      exact Bool.not_eq_true _ |>.mp hx

/-- After `pyRstrip s c`, the last character is never `c`. -/
theorem pyRstrip_getLast (s : String) (c : Char) :
    (pyRstrip s c).data.getLast? ≠ some c := by
  intro h
  have hd : (pyRstrip s c).data
      = (s.data.reverse.dropWhile (fun x => x == c)).reverse := rfl
  rw [hd, List.getLast?_reverse] at h
  have := head_dropWhile_false (fun x => x == c) _ c h
  simp at this

/-- With both environment variables set and nonempty, the credential
prelude provides the normalized base URL and the two headers of
`get_headers`. -/
theorem withCreds_ok (env : Env) (k u : String)
    (hk : env.DAYTONA_API_KEY = some k) (hk0 : k ≠ "")
    (hu : env.DAYTONA_SERVER_URL = some u) (hu0 : u ≠ "")
    (f : String → List (String × String) → Except PyErr String × List Request) :
    withCreds env f =
      f (pyRstrip u '/')
        [("Authorization", "Bearer " ++ k), ("Content-Type", "application/json")] := by
  simp [withCreds, get_base_url, get_headers, hk, hu, hk0, hu0]

/-- With the API key unset or empty, the credential prelude raises a
`ValueError` (about the server URL when that one is missing too, else
about the API key) and no request is issued, whatever the body. -/
theorem withCreds_config (env : Env)
    (h : env.DAYTONA_API_KEY = none ∨ env.DAYTONA_API_KEY = some "") :
    ∃ m, ∀ (f : String → List (String × String) → Except PyErr String × List Request),
      withCreds env f = (.error (.valueError m), []) := by
  rcases hu : env.DAYTONA_SERVER_URL with _ | u
  · exact ⟨"DAYTONA_SERVER_URL environment variable is not set",
      fun f => by simp [withCreds, get_base_url, hu]⟩
  · by_cases hu0 : u = ""
    · exact ⟨"DAYTONA_SERVER_URL environment variable is not set",
        fun f => by simp [withCreds, get_base_url, hu, hu0]⟩
    · refine ⟨"DAYTONA_API_KEY environment variable is not set", fun f => ?_⟩
      rcases h with h | h <;> simp [withCreds, get_base_url, get_headers, hu, hu0, h]

/-- A response with status at least 400 makes `send` raise the
`HTTPStatusError` carrying the status and body, after the one request. -/
theorem send_resp {srv : Service} {req : Request} {r : HResp}
    (h : srv req = .ok r) (hst : 400 ≤ r.status)
    (f : HResp → Except PyErr String) :
    send srv req f = (.error (.httpStatusError r.status r.text), [req]) := by
  simp [send, h, hst]

/-- A response with status below 400 passes through `raise_for_status`
and reaches the continuation. -/
theorem send_success {srv : Service} {req : Request} {r : HResp}
    (h : srv req = .ok r) (hst : r.status < 400)
    (f : HResp → Except PyErr String) :
    send srv req f = (f r, [req]) := by
  simp [send, h, Nat.not_le.mpr hst]

/-- `send` issues exactly its one request, whatever the outcome. -/
theorem send_snd (srv : Service) (req : Request) (f : HResp → Except PyErr String) :
    (send srv req f).2 = [req] := by
  unfold send
  rcases srv req with m | r
  · rfl
  · by_cases hst : 400 ≤ r.status <;> simp [hst]

/-- The `try/except` rendering does not change the request log. -/
theorem renderToolResult_snd (a b : String) (p : Except PyErr String × List Request) :
    (renderToolResult a b p).2 = p.2 := by
  obtain ⟨x, log⟩ := p
  cases x with
  | ok s => rfl
  | error e => cases e <;> rfl

/-- C1: the spec claims that for every path containing further '/'
separators, the URI `daytona://<sid>/files/<path>` resolves to a file
read with the full multi-segment path passed through unmodified.  The
code registers the template `daytona://{sandbox_id}/files/{path}`, whose
`{path}` placeholder matches only slash-free segments, so the
spec's own example URI `daytona://sbx1/files/a/b/c.txt` does not match
the template at all and no file read is invoked, while a single-segment
path such as `README.md` matches as expected.  This contradicts the
spec's explicit routing requirement: the code is the slip
(its own comments acknowledge that deep paths may not be caught). -/
theorem C1_multisegment_uri_does_not_resolve :
    (∀ (env : Env) (srv : Service),
      resolve_read_file_uri env srv "daytona://sbx1/files/a/b/c.txt" = none) ∧
    matchReadFileTemplate "daytona://sbx1/files/README.md" = some ("sbx1", "README.md") := by
  constructor
  · intro env srv
    have hm : matchReadFileTemplate "daytona://sbx1/files/a/b/c.txt" = none := by decide
    simp [resolve_read_file_uri, hm]
  · decide

/-- C7: `list_files(sandbox_id, path)` is pure delegation — it returns
exactly the result of `execute_command(sandbox_id, "ls -la " ++ path)`,
with no further processing of the output. -/
theorem C7_list_files_is_delegation (env : Env) (srv : Service)
    (sandbox_id path : String) :
    list_files env srv sandbox_id path =
      execute_command env srv sandbox_id ("ls -la " ++ path) := rfl

/-- C9: credential resolution of the base endpoint fails with a
`ValueError` (the `ConfigurationError` kind) when `DAYTONA_SERVER_URL`
is unset or empty, and otherwise returns the configured URL with its
trailing slashes stripped, so the resolved base URL never ends in '/'. -/
theorem C9_base_url_resolution (env : Env) (u : String) :
    ((env.DAYTONA_SERVER_URL = none ∨ env.DAYTONA_SERVER_URL = some "") →
      get_base_url env =
        .error (.valueError "DAYTONA_SERVER_URL environment variable is not set")) ∧
    (env.DAYTONA_SERVER_URL = some u → u ≠ "" →
      get_base_url env = .ok (pyRstrip u '/') ∧
      (pyRstrip u '/').data.getLast? ≠ some '/') := by
  constructor
  · rintro (h | h) <;> simp [get_base_url, h]
  · intro hu hu0
    exact ⟨by simp [get_base_url, hu, hu0], pyRstrip_getLast u '/'⟩

/-- C9 witness: with the URL unset resolution fails; with
`"http://x///"` it resolves to `"http://x"`, which does not end in '/'. -/
theorem C9_witness :
    get_base_url ⟨some "k", none⟩ =
      .error (.valueError "DAYTONA_SERVER_URL environment variable is not set") ∧
    get_base_url ⟨some "k", some "http://x///"⟩ = .ok "http://x" ∧
    ("http://x" : String).data.getLast? ≠ some '/' :=
  ⟨(C9_base_url_resolution ⟨some "k", none⟩ "w").1 (Or.inl rfl),
   ((C9_base_url_resolution ⟨some "k", some "http://x///"⟩ "http://x///").2 rfl
      (by decide)).1,
   by decide⟩

/-- C10: on any failure inside the `daytona://sandboxes` resource —
configuration (`ValueError`), transport, or application error
(`HTTPStatusError`) — the resource returns the JSON object
`{"error": <str(e)>}` instead of the plain formatted text used by the
tool operations. -/
theorem C10_resource_error_is_json_object (env : Env) (srv : Service)
    (e : PyErr) (log : List Request)
    (h : listSandboxesResourceBody env srv = (.error e, log)) :
    list_sandboxes_resource env srv =
      (jsonDumps (Json.obj [("error", Json.str (pyErrStr e))]), log) := by
  unfold list_sandboxes_resource
  rw [h]

/-- C10 witness: with the API key unset, the resource returns the JSON
object with the configuration error message, and no request is made. -/
theorem C10_witness :
    listSandboxesResourceBody ⟨none, some "http://h"⟩
        (fun _ => Except.ok ⟨200, "", Json.null⟩) =
      (.error (.valueError "DAYTONA_API_KEY environment variable is not set"), []) ∧
    list_sandboxes_resource ⟨none, some "http://h"⟩
        (fun _ => Except.ok ⟨200, "", Json.null⟩) =
      ("\x7b\"error\": \"DAYTONA_API_KEY environment variable is not set\"\x7d", []) :=
  ⟨rfl,
   C10_resource_error_is_json_object ⟨none, some "http://h"⟩
     (fun _ => Except.ok ⟨200, "", Json.null⟩)
     (.valueError "DAYTONA_API_KEY environment variable is not set") [] rfl⟩

/-- C2 counterexample: the claim says only a TRAILING `.git` suffix is
stripped from the last URL segment and a `.git` substring elsewhere is
preserved.  But `replace(".git", "")` removes every occurrence: for the
URL `https://example.com/org/my.gitrepo` (last segment `my.gitrepo`,
which has no trailing `.git` suffix) the payload name is `myrepo`, not
the preserved `my.gitrepo` the claim requires. -/
theorem C2_counterexample :
    create_payload "https://example.com/org/my.gitrepo" =
      Json.obj
        [("source", Json.obj
            [("repository", Json.obj [("url", Json.str "https://example.com/org/my.gitrepo")])]),
         ("name", Json.str "myrepo")] ∧
    ("myrepo" : String) ≠ "my.gitrepo" :=
  ⟨rfl, by decide⟩

/-- C2 (amended): `create_sandbox` derives the sandbox name from the
last '/'-separated segment of the repository URL with EVERY occurrence
of the substring `.git` removed (not only a trailing suffix), and sends
it in the `name` field of the one POST request it issues; for
`https://example.com/org/myrepo.git` the derived name equals `myrepo`. -/
theorem C2_amended_every_git_removed (env : Env) (srv : Service)
    (repository_url k u : String)
    (hk : env.DAYTONA_API_KEY = some k) (hk0 : k ≠ "")
    (hu : env.DAYTONA_SERVER_URL = some u) (hu0 : u ≠ "") :
    (create_sandbox env srv repository_url).2 =
      [{ method := "POST", url := pyRstrip u '/' ++ "/api/sandbox",
         headers := [("Authorization", "Bearer " ++ k),
                     ("Content-Type", "application/json")],
         params := [], jsonBody := some (create_payload repository_url),
         files := [], timeout := none }] ∧
    create_payload repository_url =
      Json.obj
        [("source", Json.obj
            [("repository", Json.obj [("url", Json.str repository_url)])]),
         ("name", Json.str (pyReplace ((pySplit repository_url '/').getLastD "") ".git" ""))] ∧
    derived_name "https://example.com/org/myrepo.git" = "myrepo" := by
  refine ⟨?_, rfl, by decide⟩
  unfold create_sandbox
  rw [renderToolResult_snd]
  unfold createSandboxBody
  simp only [withCreds_ok env k u hk hk0 hu hu0]
  rw [send_snd]

/-- C2 witness: the amended statement at a concrete environment, stub
and the spec's example URL. -/
theorem C2_witness :
    (("k" : String) ≠ "") ∧
    (create_sandbox ⟨some "k", some "http://h"⟩
        (fun _ => Except.ok ⟨200, "", Json.null⟩) "https://example.com/org/myrepo.git").2 =
      [{ method := "POST", url := "http://h/api/sandbox",
         headers := [("Authorization", "Bearer k"),
                     ("Content-Type", "application/json")],
         params := [],
         jsonBody := some (create_payload "https://example.com/org/myrepo.git"),
         files := [], timeout := none }] ∧
    derived_name "https://example.com/org/myrepo.git" = "myrepo" := by
  have h := C2_amended_every_git_removed ⟨some "k", some "http://h"⟩
    (fun _ => Except.ok ⟨200, "", Json.null⟩) "https://example.com/org/myrepo.git"
    "k" "http://h" rfl (by decide) rfl (by decide)
  exact ⟨by decide, h.1, h.2.2⟩

/-- C3: when `DAYTONA_API_KEY` is unset or empty, every public operation
fails by raising a `ValueError` — the configuration-error kind, rendered
by the generic except branch — before any HTTP request is constructed or
sent: each operation body yields the error with an empty request log
(the message names the server URL when that variable is missing too,
since `get_base_url()` runs first; it is a configuration error either
way), and `list_files`, which delegates to `execute_command`, likewise
returns the rendered configuration error with an empty log. -/
theorem C3_unset_api_key_no_request (env : Env) (srv : Service)
    (repository_url sandbox_id command path content : String)
    (h : env.DAYTONA_API_KEY = none ∨ env.DAYTONA_API_KEY = some "") :
    ∃ m,
      listSandboxesBody env srv = (.error (.valueError m), []) ∧
      createSandboxBody env srv repository_url = (.error (.valueError m), []) ∧
      getSandboxInfoBody env srv sandbox_id = (.error (.valueError m), []) ∧
      removeSandboxBody env srv sandbox_id = (.error (.valueError m), []) ∧
      executeCommandBody env srv sandbox_id command = (.error (.valueError m), []) ∧
      readFileBody env srv sandbox_id path = (.error (.valueError m), []) ∧
      writeFileBody env srv sandbox_id path content = (.error (.valueError m), []) ∧
      executeCommandBody env srv sandbox_id ("ls -la " ++ path) = (.error (.valueError m), []) ∧
      list_files env srv sandbox_id path = ("Error executing command: " ++ m, []) := by
  obtain ⟨m, hm⟩ := withCreds_config env h
  have h8 : executeCommandBody env srv sandbox_id ("ls -la " ++ path) =
      (.error (.valueError m), []) := hm _
  refine ⟨m, hm _, hm _, hm _, hm _, hm _, hm _, hm _, h8, ?_⟩
  show renderToolResult "HTTP Error executing command: " "Error executing command: "
      (executeCommandBody env srv sandbox_id ("ls -la " ++ path)) =
    ("Error executing command: " ++ m, [])
  rw [h8]
  rfl

/-- C3 witness: concrete empty API key, with every body failing as a
`ValueError` and zero requests issued. -/
theorem C3_witness :
    ((Env.mk (some "") (some "http://h")).DAYTONA_API_KEY = none ∨
      (Env.mk (some "") (some "http://h")).DAYTONA_API_KEY = some "") ∧
    ∃ m,
      listSandboxesBody ⟨some "", some "http://h"⟩
          (fun _ => Except.ok ⟨200, "", Json.null⟩) = (.error (.valueError m), []) ∧
      createSandboxBody ⟨some "", some "http://h"⟩
          (fun _ => Except.ok ⟨200, "", Json.null⟩) "https://example.com/r.git" =
        (.error (.valueError m), []) ∧
      getSandboxInfoBody ⟨some "", some "http://h"⟩
          (fun _ => Except.ok ⟨200, "", Json.null⟩) "sbx1" = (.error (.valueError m), []) ∧
      removeSandboxBody ⟨some "", some "http://h"⟩
          (fun _ => Except.ok ⟨200, "", Json.null⟩) "sbx1" = (.error (.valueError m), []) ∧
      executeCommandBody ⟨some "", some "http://h"⟩
          (fun _ => Except.ok ⟨200, "", Json.null⟩) "sbx1" "echo hi" =
        (.error (.valueError m), []) ∧
      readFileBody ⟨some "", some "http://h"⟩
          (fun _ => Except.ok ⟨200, "", Json.null⟩) "sbx1" "/tmp/a.txt" =
        (.error (.valueError m), []) ∧
      writeFileBody ⟨some "", some "http://h"⟩
          (fun _ => Except.ok ⟨200, "", Json.null⟩) "sbx1" "/tmp/a.txt" "data" =
        (.error (.valueError m), []) ∧
      executeCommandBody ⟨some "", some "http://h"⟩
          (fun _ => Except.ok ⟨200, "", Json.null⟩) "sbx1" ("ls -la " ++ "/tmp") =
        (.error (.valueError m), []) ∧
      list_files ⟨some "", some "http://h"⟩
          (fun _ => Except.ok ⟨200, "", Json.null⟩) "sbx1" "/tmp" =
        ("Error executing command: " ++ m, []) :=
  ⟨Or.inr rfl,
   C3_unset_api_key_no_request ⟨some "", some "http://h"⟩
     (fun _ => Except.ok ⟨200, "", Json.null⟩)
     "https://example.com/r.git" "sbx1" "echo hi" "/tmp" "data" (Or.inr rfl)⟩

/-- C4: with valid credentials, when the service answers any request
with a status of 400 or above, every public operation returns the
`HTTPStatusError` rendering — `"HTTP Error <op>: <status> - <body>"` —
carrying that status code and the response body.  Every operation is a
total function of the environment and the service, so no failure
propagates past the tool boundary as an uncaught fault. -/
theorem C4_http_error_surfaces (env : Env) (srv : Service) (resp : HResp)
    (repository_url sandbox_id command path content k u : String)
    (hk : env.DAYTONA_API_KEY = some k) (hk0 : k ≠ "")
    (hu : env.DAYTONA_SERVER_URL = some u) (hu0 : u ≠ "")
    (hsrv : ∀ q, srv q = .ok resp) (hst : 400 ≤ resp.status) :
    (list_sandboxes env srv).1 =
      "HTTP Error listing sandboxes: " ++ toString resp.status ++ " - " ++ resp.text ∧
    (create_sandbox env srv repository_url).1 =
      "HTTP Error creating sandbox: " ++ toString resp.status ++ " - " ++ resp.text ∧
    (get_sandbox_info env srv sandbox_id).1 =
      "HTTP Error getting sandbox info: " ++ toString resp.status ++ " - " ++ resp.text ∧
    (remove_sandbox env srv sandbox_id).1 =
      "HTTP Error removing sandbox: " ++ toString resp.status ++ " - " ++ resp.text ∧
    (execute_command env srv sandbox_id command).1 =
      "HTTP Error executing command: " ++ toString resp.status ++ " - " ++ resp.text ∧
    (read_file env srv sandbox_id path).1 =
      "HTTP Error reading file: " ++ toString resp.status ++ " - " ++ resp.text ∧
    (write_file env srv sandbox_id path content).1 =
      "HTTP Error writing file: " ++ toString resp.status ++ " - " ++ resp.text ∧
    (list_files env srv sandbox_id path).1 =
      "HTTP Error executing command: " ++ toString resp.status ++ " - " ++ resp.text := by
  refine ⟨?_, ?_, ?_, ?_, ?_, ?_, ?_, ?_⟩
  · unfold list_sandboxes listSandboxesBody
    simp only [withCreds_ok env k u hk hk0 hu hu0]
    rw [send_resp (hsrv _) hst]
    rfl
  · unfold create_sandbox createSandboxBody
    simp only [withCreds_ok env k u hk hk0 hu hu0]
    rw [send_resp (hsrv _) hst]
    rfl
  · unfold get_sandbox_info getSandboxInfoBody
    simp only [withCreds_ok env k u hk hk0 hu hu0]
    rw [send_resp (hsrv _) hst]
    rfl
  · unfold remove_sandbox removeSandboxBody
    simp only [withCreds_ok env k u hk hk0 hu hu0]
    rw [send_resp (hsrv _) hst]
    rfl
  · unfold execute_command executeCommandBody
    simp only [withCreds_ok env k u hk hk0 hu hu0]
    rw [send_resp (hsrv _) hst]
    rfl
  · unfold read_file readFileBody
    simp only [withCreds_ok env k u hk hk0 hu hu0]
    rw [send_resp (hsrv _) hst]
    rfl
  · unfold write_file writeFileBody
    simp only [withCreds_ok env k u hk hk0 hu hu0]
    rw [send_resp (hsrv _) hst]
    rfl
  · unfold list_files execute_command executeCommandBody
    simp only [withCreds_ok env k u hk hk0 hu hu0]
    rw [send_resp (hsrv _) hst]
    rfl

/-- C4 witness: a stub answering 500 with body `boom` makes every
operation return the formatted error carrying status and body. -/
theorem C4_witness :
    (400 : Nat) ≤ 500 ∧
    (list_sandboxes envOK srv500).1 = "HTTP Error listing sandboxes: 500 - boom" ∧
    (create_sandbox envOK srv500 "https://example.com/org/myrepo.git").1 =
      "HTTP Error creating sandbox: 500 - boom" ∧
    (get_sandbox_info envOK srv500 "sbx1").1 =
      "HTTP Error getting sandbox info: 500 - boom" ∧
    (remove_sandbox envOK srv500 "sbx1").1 =
      "HTTP Error removing sandbox: 500 - boom" ∧
    (execute_command envOK srv500 "sbx1" "echo hi").1 =
      "HTTP Error executing command: 500 - boom" ∧
    (read_file envOK srv500 "sbx1" "/tmp/a.txt").1 =
      "HTTP Error reading file: 500 - boom" ∧
    (write_file envOK srv500 "sbx1" "/tmp/a.txt" "data").1 =
      "HTTP Error writing file: 500 - boom" ∧
    (list_files envOK srv500 "sbx1" "/tmp/a.txt").1 =
      "HTTP Error executing command: 500 - boom" := by
  have h := C4_http_error_surfaces envOK srv500 ⟨500, "boom", Json.null⟩
    "https://example.com/org/myrepo.git" "sbx1" "echo hi" "/tmp/a.txt" "data"
    "k" "http://h" rfl (by decide) rfl (by decide) (fun _ => rfl) (by decide)
  exact ⟨by decide, h.1, h.2.1, h.2.2.1, h.2.2.2.1, h.2.2.2.2.1, h.2.2.2.2.2.1,
    h.2.2.2.2.2.2.1, h.2.2.2.2.2.2.2⟩

/-- C5 counterexample: the claim says a 404 on `remove_sandbox` surfaces
as a distinct `NotFoundError` kind.  In the code there is no such kind:
the 404 raises the same `httpx.HTTPStatusError` used for every status of
400 and above (the `PyErr` type enumerates exactly the failure
classifications occurring in the source, and has no not-found variant),
and it is rendered by the same generic `"HTTP Error removing sandbox:"`
format as, for instance, a 500 — an undifferentiated application error
distinguished only by the status digits embedded in the text. -/
theorem C5_counterexample :
    (removeSandboxBody envOK srv404 "sbx1").1 =
      .error (.httpStatusError 404 "gone") ∧
    (removeSandboxBody envOK srv500 "sbx1").1 =
      .error (.httpStatusError 500 "boom") ∧
    (remove_sandbox envOK srv404 "sbx1").1 =
      "HTTP Error removing sandbox: 404 - gone" :=
  ⟨rfl, rfl, rfl⟩

/-- C5 (amended): removing a sandbox the service reports missing (404)
does not crash: it surfaces as the generic formatted `HTTPStatusError`
result carrying status 404 and the response body — the same
undifferentiated `ApplicationError` classification used for every other
status of 400 or above, with no distinct `NotFoundError` kind. -/
theorem C5_amended_404_is_generic_app_error (env : Env) (srv : Service)
    (resp : HResp) (sandbox_id k u : String)
    (hk : env.DAYTONA_API_KEY = some k) (hk0 : k ≠ "")
    (hu : env.DAYTONA_SERVER_URL = some u) (hu0 : u ≠ "")
    (hsrv : ∀ q, srv q = .ok resp) (hst : resp.status = 404) :
    removeSandboxBody env srv sandbox_id =
      (.error (.httpStatusError 404 resp.text),
       [{ method := "DELETE", url := pyRstrip u '/' ++ "/api/sandbox/" ++ sandbox_id,
          headers := [("Authorization", "Bearer " ++ k),
                      ("Content-Type", "application/json")],
          params := [], jsonBody := none, files := [], timeout := none }]) ∧
    (remove_sandbox env srv sandbox_id).1 =
      "HTTP Error removing sandbox: 404 - " ++ resp.text := by
  have hb : removeSandboxBody env srv sandbox_id =
      (.error (.httpStatusError 404 resp.text),
       [{ method := "DELETE", url := pyRstrip u '/' ++ "/api/sandbox/" ++ sandbox_id,
          headers := [("Authorization", "Bearer " ++ k),
                      ("Content-Type", "application/json")],
          params := [], jsonBody := none, files := [], timeout := none }]) := by
    unfold removeSandboxBody
    simp only [withCreds_ok env k u hk hk0 hu hu0]
    rw [send_resp (hsrv _) (by omega), hst]
  refine ⟨hb, ?_⟩
  unfold remove_sandbox
  rw [hb]
  rfl

/-- C5 witness: the amended statement at the concrete 404 stub. -/
theorem C5_witness :
    ((404 : Nat) = 404) ∧
    removeSandboxBody envOK srv404 "sbx1" =
      (.error (.httpStatusError 404 "gone"),
       [{ method := "DELETE", url := "http://h/api/sandbox/sbx1",
          headers := [("Authorization", "Bearer k"),
                      ("Content-Type", "application/json")],
          params := [], jsonBody := none, files := [], timeout := none }]) ∧
    (remove_sandbox envOK srv404 "sbx1").1 =
      "HTTP Error removing sandbox: 404 - gone" := by
  have h := C5_amended_404_is_generic_app_error envOK srv404 ⟨404, "gone", Json.null⟩
    "sbx1" "k" "http://h" rfl (by decide) rfl (by decide) (fun _ => rfl) rfl
  exact ⟨rfl, h.1, h.2⟩

/-- C6: on a successful `execute_command` response whose JSON body is an
object, the result is assembled from whichever of the fields
`exitCode`/`stdout`/`stderr` are present: a missing `exitCode` defaults
to the explicit string `Unknown` and a missing `stdout`/`stderr` to the
empty string, and the operation succeeds rather than failing on the
missing fields. -/
theorem C6_execute_missing_fields_default (env : Env) (srv : Service)
    (resp : HResp) (sandbox_id command k u : String) (kvs : List (String × Json))
    (hk : env.DAYTONA_API_KEY = some k) (hk0 : k ≠ "")
    (hu : env.DAYTONA_SERVER_URL = some u) (hu0 : u ≠ "")
    (hsrv : ∀ q, srv q = .ok resp) (hst : resp.status < 400)
    (hjson : resp.json = Json.obj kvs) :
    (execute_command env srv sandbox_id command).1 =
      "Exit Code: " ++ pyFormat ((kvs.lookup "exitCode").getD (Json.str "Unknown")) ++
      "\nStdout: " ++ pyFormat ((kvs.lookup "stdout").getD (Json.str "")) ++
      "\nStderr: " ++ pyFormat ((kvs.lookup "stderr").getD (Json.str "")) := by
  unfold execute_command executeCommandBody
  simp only [withCreds_ok env k u hk hk0 hu hu0]
  rw [send_success (hsrv _) hst]
  simp [pyDictGet, hjson, renderToolResult]

/-- C6 witness: a 200 response whose body is the empty JSON object (all
three fields missing) yields the `Unknown` exit code and empty outputs. -/
theorem C6_witness :
    (200 : Nat) < 400 ∧
    (execute_command envOK srv200 "sbx1" "echo hi").1 =
      "Exit Code: Unknown\nStdout: \nStderr: " := by
  have h := C6_execute_missing_fields_default envOK srv200 ⟨200, "ok", Json.obj []⟩
    "sbx1" "echo hi" "k" "http://h" [] rfl (by decide) rfl (by decide)
    (fun _ => rfl) (by decide) rfl
  exact ⟨by decide, h⟩

/-- C8: with valid credentials, `write_file` issues exactly one POST to
the per-sandbox upload endpoint whose multipart part is named `file`,
carries the content under the file name given by the final
'/'-separated segment of the path, with the full path as the `path`
query parameter, no JSON body, and the headers reduced to
`Authorization` alone — the `Content-Type: application/json` entry is
popped for this call. -/
theorem C8_write_file_multipart_request (env : Env) (srv : Service)
    (sandbox_id path content k u : String)
    (hk : env.DAYTONA_API_KEY = some k) (hk0 : k ≠ "")
    (hu : env.DAYTONA_SERVER_URL = some u) (hu0 : u ≠ "") :
    (write_file env srv sandbox_id path content).2 =
      [{ method := "POST",
         url := pyRstrip u '/' ++ "/api/toolbox/" ++ sandbox_id ++ "/files/upload",
         headers := [("Authorization", "Bearer " ++ k)],
         params := [("path", path)], jsonBody := none,
         files := [("file", (pySplit path '/').getLastD "", content)],
         timeout := none }] := by
  unfold write_file
  rw [renderToolResult_snd]
  unfold writeFileBody
  simp only [withCreds_ok env k u hk hk0 hu hu0]
  rw [send_snd]
  rfl

/-- C8 witness: the write request at a concrete multi-segment path; the
file part is named by the final segment `a.txt`. -/
theorem C8_witness :
    (("k" : String) ≠ "") ∧
    (write_file envOK srv200 "sbx1" "/tmp/dir/a.txt" "data").2 =
      [{ method := "POST", url := "http://h/api/toolbox/sbx1/files/upload",
         headers := [("Authorization", "Bearer k")],
         params := [("path", "/tmp/dir/a.txt")], jsonBody := none,
         files := [("file", "a.txt", "data")], timeout := none }] := by
  have h := C8_write_file_multipart_request envOK srv200 "sbx1" "/tmp/dir/a.txt"
    "data" "k" "http://h" rfl (by decide) rfl (by decide)
  exact ⟨by decide, h⟩
